import Mathlib

/-!
Shallow embedding of `src/pytools/vectorizations.py` (the `vectorize*` family:
the structural map/zip engine) and proofs settling the frozen claims about it.

Modelling conventions:
* Python values are the inductive `PyVal`.  The leaf types of the source's
  `BASE_TYPES` are represented by the constructors `vint`, `vbool`, `vstr`,
  `vbytes`, `vbytearray`, `vmemoryview` (all numeric scalar leaf kinds are
  represented by `vint`; no claim depends on float/complex semantics).
  `NUMPY_TYPES`/`PANDAS_TYPES`/`DATETIME_TYPES` scalars are likewise leaves and
  are subsumed by the same constructors, so `isinstance(obj, TYPES)` becomes
  the predicate `isLeaf`.
* The container kinds of `CONTAINER_TYPES` are `vlist`, `vset`, `vtuple`,
  `vdict`, `vndarray`, `vframe` (pd.DataFrame as column-name -> column cells)
  and `vseries`.  A Python `set` is modelled by its (deduplicated) iteration
  list; a `dict` by its insertion-ordered entry list (keys assumed distinct,
  as in a real dict).
* Fallible Python code returns `Except Err PyVal`; an exception raised by the
  user-supplied function is a value of `Err` returned by that function.
* The source decorates every engine entry point with loguru's `@logger.catch`,
  which catches any `Exception`, logs it, and (with the default
  `reraise=False`) makes the decorated call return `None`.  This is the
  function `loggerCatch`.  The recursive calls inside each closure go through
  the decorated function, hence through `loggerCatch`, exactly as in the
  source (the closure name `to_vectorize` is bound to the decorated function).
* CPython bounds recursion by `sys.getrecursionlimit()`; exceeding it raises
  `RecursionError`.  This is modelled by the explicit fuel parameter of each
  `*_raw` function: fuel 0 raises `Err.recursionError`.
-/

inductive PyVal where
  | vnone
  | vint (n : Int)
  | vbool (b : Bool)
  | vstr (s : String)
  | vbytes (bs : List Nat)
  | vbytearray (bs : List Nat)
  | vmemoryview (bs : List Nat)
  | vlist (xs : List PyVal)
  | vtuple (xs : List PyVal)
  | vset (xs : List PyVal)
  | vdict (entries : List (PyVal × PyVal))
  | vndarray (shape : List Nat) (data : List PyVal)
  | vframe (cols : List (PyVal × List PyVal))
  | vseries (entries : List (PyVal × PyVal))

/-- The Python exceptions the engine can produce or receive.
`typeError msg` is Python's `TypeError(msg)`; `recursionError` is CPython's
`RecursionError` on stack exhaustion; `userError` stands for any exception
raised by the user-supplied leaf function.  `depthExceededError` is the
spec's `DepthExceededError`: it is declared so that claims about it can be
stated, but no code path of the source ever raises it. -/
inductive Err where
  | typeError (msg : String)
  | recursionError
  | userError (msg : String)
  | depthExceededError
  deriving DecidableEq, Repr

/-- isinstance(obj, TYPES): membership in BASE_TYPES/NUMPY_TYPES/PANDAS_TYPES/
DATETIME_TYPES, i.e. the leaf classification. -/
def isLeaf : PyVal → Bool
  | .vint _ | .vbool _ | .vstr _ | .vbytes _ | .vbytearray _ | .vmemoryview _ => true
  | _ => false

def isList : PyVal → Bool
  | .vlist _ => true
  | _ => false

def isSet : PyVal → Bool
  | .vset _ => true
  | _ => false

def isTuple : PyVal → Bool
  | .vtuple _ => true
  | _ => false

def isDict : PyVal → Bool
  | .vdict _ => true
  | _ => false

def isNdarray : PyVal → Bool
  | .vndarray _ _ => true
  | _ => false

def isFrame : PyVal → Bool
  | .vframe _ => true
  | _ => false

def isSeries : PyVal → Bool
  | .vseries _ => true
  | _ => false

/-- isinstance(obj, CONTAINER_TYPES): CONTAINER_TYPES = (list, set, tuple,
dict, np.ndarray, pd.DataFrame, pd.Series). -/
def isContainer : PyVal → Bool
  | .vlist _ | .vset _ | .vtuple _ | .vdict _ | .vndarray _ _ | .vframe _ | .vseries _ => true
  | _ => false

/-- The isinstance checks of CONTAINER_TYPES, in the source's tuple order. -/
def containerPreds : List (PyVal → Bool) :=
  [isList, isSet, isTuple, isDict, isNdarray, isFrame, isSeries]

/-- A single quote character, used by Python's repr of strings. -/
def squote : String := String.singleton (Char.ofNat 39)

mutual

/-- Python `repr` of a value, as used by f-string interpolation of containers.
Faithful for the leaf and container shapes the claims exercise (strings with
no special characters, ints, bools, lists); renderings of binary buffers and
of the numpy/pandas containers are simplified placeholders never inspected by
a claim. -/
def pyRepr : PyVal → String
  | .vnone => "None"
  | .vint n => toString n
  | .vbool b => if b then "True" else "False"
  | .vstr s => squote ++ s ++ squote
  | .vbytes _ => "b" ++ squote ++ squote
  | .vbytearray _ => "bytearray(b" ++ squote ++ squote ++ ")"
  | .vmemoryview _ => "<memory>"
  | .vlist xs => "[" ++ pyReprList xs ++ "]"
  | .vtuple xs => "(" ++ pyReprList xs ++ ")"
  | .vset xs => "\x7b" ++ pyReprList xs ++ "\x7d"
  | .vdict es => "\x7b" ++ pyReprPairs es ++ "\x7d"
  | .vndarray _ xs => "array([" ++ pyReprList xs ++ "])"
  | .vframe _ => "<DataFrame>"
  | .vseries _ => "<Series>"

def pyReprList : List PyVal → String
  | [] => ""
  | [x] => pyRepr x
  | x :: xs => pyRepr x ++ ", " ++ pyReprList xs

def pyReprPairs : List (PyVal × PyVal) → String
  | [] => ""
  | [kv] => pyRepr kv.1 ++ ": " ++ pyRepr kv.2
  | kv :: kvs => pyRepr kv.1 ++ ": " ++ pyRepr kv.2 ++ ", " ++ pyReprPairs kvs

end

/-- Python `str` of a value (used by f-strings): identity on strings,
`repr` otherwise. -/
def pyStr : PyVal → String
  | .vstr s => s
  | v => pyRepr v

/-- f-string `f"\x7bfun.__name__\x7d\x7bkey_el\x7d"` of the zip dict branches:
the function's name concatenated with the str of the Python list `key_el`. -/
def synthKey (name : String) (keys : List PyVal) : String :=
  name ++ "[" ++ pyReprList keys ++ "]"

mutual

/-- Python structural equality `==` on the modelled values (the equality used
by `set` deduplication).  The cross-type numeric equalities of Python
(e.g. `True == 1`) are not modelled; no claim depends on them. -/
def pyBeq : PyVal → PyVal → Bool
  | .vnone, .vnone => true
  | .vint a, .vint b => a == b
  | .vbool a, .vbool b => a == b
  | .vstr a, .vstr b => a == b
  | .vbytes a, .vbytes b => a == b
  | .vbytearray a, .vbytearray b => a == b
  | .vmemoryview a, .vmemoryview b => a == b
  | .vlist a, .vlist b => pyBeqList a b
  | .vtuple a, .vtuple b => pyBeqList a b
  | .vset a, .vset b => pyBeqList a b
  | .vdict a, .vdict b => pyBeqPairs a b
  | .vndarray s a, .vndarray t b => s == t && pyBeqList a b
  | .vframe a, .vframe b => pyBeqCols a b
  | .vseries a, .vseries b => pyBeqPairs a b
  | _, _ => false
termination_by structural a => a

def pyBeqList : List PyVal → List PyVal → Bool
  | [], [] => true
  | x :: xs, y :: ys => pyBeq x y && pyBeqList xs ys
  | _, _ => false
termination_by structural a => a

def pyBeqPairs : List (PyVal × PyVal) → List (PyVal × PyVal) → Bool
  | [], [] => true
  | (k, v) :: xs, (l, w) :: ys => pyBeq k l && pyBeq v w && pyBeqPairs xs ys
  | _, _ => false
termination_by structural a => a

def pyBeqCols : List (PyVal × List PyVal) → List (PyVal × List PyVal) → Bool
  | [], [] => true
  | (k, c) :: xs, (l, d) :: ys => pyBeq k l && pyBeqList c d && pyBeqCols xs ys
  | _, _ => false
termination_by structural a => a

end

/-- Membership by Python equality. -/
def pyContains (xs : List PyVal) (v : PyVal) : Bool :=
  xs.any (fun x => pyBeq x v)

/-- Deduplication by Python equality: the observable effect of the `set(...)`
constructor on a list.  Python's actual set iteration order is hash-dependent
and unspecified; the model keeps one representative per equality class (the
last occurrence's position), which no claim distinguishes. -/
def pyDedup : List PyVal → List PyVal
  | [] => []
  | x :: xs => if pyContains (pyDedup xs) x then pyDedup xs else x :: pyDedup xs

/-- `ALL_ARGUMENTS` of the source: the message of the TypeError raised on a
shape inconsistency. -/
def ALL_ARGUMENTS : String := "All arguments should have the same shape."

/-- The spec names the shape-inconsistency failure `ShapeMismatchError`; in
the source it is `TypeError(ALL_ARGUMENTS)`. -/
def ShapeMismatchError : Err := .typeError ALL_ARGUMENTS

/-- Python repr of a class object, as interpolated into error messages. -/
def pyClassRepr (n : String) : String := "<class " ++ squote ++ n ++ squote ++ ">"

/-- f-string rendering of the CONTAINER_TYPES tuple. -/
def CONTAINER_TYPES_STR : String :=
  "(" ++ String.intercalate ", "
    (["list", "set", "tuple", "dict", "numpy.ndarray",
      "pandas.core.frame.DataFrame", "pandas.core.series.Series"].map pyClassRepr) ++ ")"

/-- Message of the TypeError raised when the N zip inputs do not share one
container kind. -/
def TYPE_MISMATCH_MSG : String :=
  "Input objects should have the same type. Allowed types are " ++ CONTAINER_TYPES_STR ++ "."

/-- Message of the TypeError raised by `vectorize_multi_param` when a keyword
parameter is not a leaf (the source's message names CONTAINER_TYPES even
though the check is against TYPES; reproduced faithfully). -/
def PARAM_TYPE_MSG : String :=
  "Parameters should be of type: " ++ CONTAINER_TYPES_STR

/-- Message of `TypeError(f"... is not a data container.")`. -/
def notContainerMsg (obj : PyVal) : String :=
  pyStr obj ++ " is not a data container."

/-- `all_types_same(obj, types)` of the source: every element of the iterable
satisfies the isinstance check. -/
def all_types_same (obj : List PyVal) (types : PyVal → Bool) : Bool :=
  obj.all types

/-- `dtype_consistency_in_container(container, base_dtypes)` of the source:
identical to `all_types_same` up to argument naming. -/
def dtype_consistency_in_container (container : List PyVal) (base_dtypes : PyVal → Bool) : Bool :=
  container.all base_dtypes

/-- `argument_consistency(objects, cont_types)` of the source: some container
type has every object as an instance. -/
def argument_consistency (objects : List PyVal) (cont_types : List (PyVal → Bool)) : Bool :=
  cont_types.any (fun typ => objects.all typ)

/-- Python `len(obj)` for the container kinds the source applies it to. -/
def pyLen : PyVal → Nat
  | .vlist xs | .vtuple xs | .vset xs => xs.length
  | .vdict es => es.length
  | .vndarray s _ => s.headD 0
  | .vframe cols => (cols.headD (.vnone, [])).2.length
  | .vseries es => es.length
  | .vstr s => s.length
  | _ => 0

/-- `list(obj.keys())` of a modelled dict. -/
def dictKeys : PyVal → List PyVal
  | .vdict es => es.map Prod.fst
  | _ => []

/-- `list(obj.values())` of a modelled dict. -/
def dictVals : PyVal → List PyVal
  | .vdict es => es.map Prod.snd
  | _ => []

/-- `obj.shape` of the pandas containers (and the same data for ndarray). -/
def pyShape : PyVal → List Nat
  | .vseries es => [es.length]
  | .vframe cols => [(cols.headD (.vnone, [])).2.length, cols.length]
  | .vndarray s _ => s
  | _ => []

/-- `np.shape(obj)`. -/
def npShape : PyVal → List Nat
  | .vndarray s _ => s
  | .vlist xs => [xs.length]
  | .vtuple xs => [xs.length]
  | _ => []

/-- `len_consistency(objects, ctype)` of the source, with its default
`ctype="list"` and its fall-through `else: return False` (reached e.g. for
`ctype="set"`, which `vectorize_multi_param` passes). -/
def len_consistency (objects : List PyVal) (ctype : String := "list") : Bool :=
  if ctype == "tuple" || ctype == "list" || ctype == "str" then
    objects.all (fun o => pyLen o == pyLen (objects.headD .vnone))
  else if ctype == "dict" then
    objects.all (fun o => (dictKeys o).length == (dictKeys (objects.headD .vnone)).length)
  else if ctype == "pd.Series" || ctype == "pd.DataFrame" then
    objects.all (fun o => pyShape o == pyShape (objects.headD .vnone))
  else if ctype == "np.ndarray" then
    objects.all (fun o => npShape o == npShape (objects.headD .vnone))
  else false

/-- Elements of an ordered container, for Python indexing `obj[i]`. -/
def elemsOf : PyVal → List PyVal
  | .vlist xs | .vtuple xs | .vset xs => xs
  | _ => []

/-- `get_section(objects, i, "list")`: the tuple of i-th elements. -/
def get_section_list (objects : List PyVal) (i : Nat) : List PyVal :=
  objects.map (fun o => (elemsOf o).getD i .vnone)

/-- `get_section(objects, i, "dict")`: the list of i-th keys and the tuple of
i-th values. -/
def get_section_dict (objects : List PyVal) (i : Nat) : List PyVal × List PyVal :=
  (objects.map (fun o => (dictKeys o).getD i .vnone),
   objects.map (fun o => (dictVals o).getD i .vnone))

/-- loguru's `@logger.catch` with its defaults: any exception escaping the
decorated function is caught, logged, and replaced by the return value
`None`; the exception is not re-raised (`reraise=False`). -/
def loggerCatch : Except Err PyVal → PyVal
  | .ok v => v
  | .error _ => .vnone

/-- Left-to-right effectful map: the evaluation order of a Python list
comprehension (aborts at the first exception). -/
def mapE {α β : Type} (f : α → Except Err β) : List α → Except Err (List β)
  | [] => .ok []
  | x :: xs =>
    match f x with
    | .error e => .error e
    | .ok y =>
      match mapE f xs with
      | .error e => .error e
      | .ok ys => .ok (y :: ys)

/-- `Except.map`, written as a match so its equations rewrite cleanly. -/
def okMap {α β : Type} (g : α → β) : Except Err α → Except Err β
  | .error e => .error e
  | .ok a => .ok (g a)

/-- `list(obj)` applied to an iterable container. -/
def pyListOf : PyVal → PyVal
  | .vtuple xs => .vlist xs
  | .vset xs => .vlist xs
  | v => v

/-- `tuple(v)` applied to the result of a decorated recursive call.  On the
success path that result is a list; on the swallowed-exception path it is
`None`, and `tuple(None)` raises a TypeError. -/
def pyTupleOf : PyVal → Except Err PyVal
  | .vlist xs => .ok (.vtuple xs)
  | .vtuple xs => .ok (.vtuple xs)
  | .vset xs => .ok (.vtuple xs)
  | v => .error (.typeError (squote ++ "NoneType" ++ squote ++ " object is not iterable: " ++ pyStr v))

/-- `set(v)` applied to the result of a decorated recursive call:
deduplicates by Python equality. -/
def pySetOf : PyVal → Except Err PyVal
  | .vlist xs => .ok (.vset (pyDedup xs))
  | .vtuple xs => .ok (.vset (pyDedup xs))
  | .vset xs => .ok (.vset (pyDedup xs))
  | v => .error (.typeError (squote ++ "NoneType" ++ squote ++ " object is not iterable: " ++ pyStr v))

/-- `obj.to_dict(orient="list")` of a DataFrame: column name -> column list. -/
def frameToDict (cols : List (PyVal × List PyVal)) : PyVal :=
  .vdict (cols.map (fun c => (c.1, PyVal.vlist c.2)))

/-- `obj.to_dict(orient="list")` applied through a container value. -/
def frameToDictVal : PyVal → PyVal
  | .vframe cols => frameToDict cols
  | v => v

/-- `obj.to_dict()` of a Series: index -> value. -/
def seriesToDictVal : PyVal → PyVal
  | .vseries es => .vdict es
  | v => v

/-- A mapping value usable as a DataFrame column. -/
def asCol : PyVal → Except Err (List PyVal)
  | .vlist xs => .ok xs
  | v => .error (.typeError (pyStr v ++ " is not a valid DataFrame column"))

/-- `pd.DataFrame(v)` applied to the result of a decorated recursive call
(the error renderings of the degenerate inputs are simplified; no claim
inspects them). -/
def pdDataFrameOf : PyVal → Except Err PyVal
  | .vdict es => okMap .vframe (mapE (fun kv => okMap (fun c => (kv.1, c)) (asCol kv.2)) es)
  | v => .error (.typeError (pyStr v ++ " is not a valid DataFrame source"))

/-- `pd.Series(v)` applied to the result of a decorated recursive call. -/
def pdSeriesOf : PyVal → Except Err PyVal
  | .vdict es => .ok (.vseries es)
  | v => .error (.typeError (pyStr v ++ " is not a valid Series source"))

/-- A user-supplied function of one variable; a raised exception is an
`Err` result. -/
abbrev PyFun := PyVal → Except Err PyVal

/-- A uniform keyword-parameter bag (`**params`). -/
abbrev Params := List (String × PyVal)

/-- A user-supplied function of one variable plus `**params`. -/
abbrev PyFunP := PyVal → Params → Except Err PyVal

/-- A user-supplied function of `*objects` variables. -/
abbrev PyFunN := List PyVal → Except Err PyVal

/-- A user-supplied function of `*objects` variables plus `**params`. -/
abbrev PyFunNP := List PyVal → Params → Except Err PyVal

/-- The undecorated body of `to_vectorize` inside `vectorize(fun)`.  The
recursive calls refer to the decorated closure, so they go through
`loggerCatch`; the fuel models CPython's recursion limit. -/
def vectorize_raw (fn : PyFun) : Nat → PyVal → Except Err PyVal
  | 0, _ => .error .recursionError
  | fuel + 1, obj =>
    if isLeaf obj then fn obj
    else if !(isContainer obj) then .error (.typeError (notContainerMsg obj))
    else match obj with
    | .vlist xs =>
      if all_types_same xs isLeaf then okMap .vlist (mapE fn xs)
      else okMap .vlist (mapE (fun el =>
        if isLeaf el then fn el
        else .ok (loggerCatch (vectorize_raw fn fuel el))) xs)
    | .vtuple xs => pyTupleOf (loggerCatch (vectorize_raw fn fuel (.vlist xs)))
    | .vset xs => pySetOf (loggerCatch (vectorize_raw fn fuel (.vlist xs)))
    | .vdict es =>
      okMap .vdict (mapE (fun kv =>
        okMap (fun w => (kv.1, w))
          (if isDict obj then fn kv.2
           else .ok (loggerCatch (vectorize_raw fn fuel kv.2)))) es)
    | .vndarray s d => fn (.vndarray s d)
    | .vframe cols => pdDataFrameOf (loggerCatch (vectorize_raw fn fuel (frameToDict cols)))
    | _ => .ok .vnone

/-- The decorated `vectorize(fun)` closure: `@logger.catch` wraps the body. -/
def vectorize (fn : PyFun) (limit : Nat) (obj : PyVal) : PyVal :=
  loggerCatch (vectorize_raw fn limit obj)

/-- The undecorated body of `to_vectorize` inside `vectorize_param(fun)`.
Note: every recursive call in the source is `to_vectorize(el)` with NO
`**params` forwarded, so recursion proceeds with an empty parameter bag;
only the direct leaf applications (and the tautological dict branch) pass
`**params`. -/
def vectorize_param_raw (fn : PyFunP) : Nat → PyVal → Params → Except Err PyVal
  | 0, _, _ => .error .recursionError
  | fuel + 1, obj, params =>
    if isLeaf obj then fn obj params
    else if !(isContainer obj) then .error (.typeError (notContainerMsg obj))
    else match obj with
    | .vlist xs =>
      if all_types_same xs isLeaf then okMap .vlist (mapE (fun el => fn el params) xs)
      else okMap .vlist (mapE (fun el =>
        if isLeaf el then fn el params
        else .ok (loggerCatch (vectorize_param_raw fn fuel el []))) xs)
    | .vtuple xs => pyTupleOf (loggerCatch (vectorize_param_raw fn fuel (.vlist xs) []))
    | .vset xs => pySetOf (loggerCatch (vectorize_param_raw fn fuel (.vlist xs) []))
    | .vdict es =>
      okMap .vdict (mapE (fun kv =>
        okMap (fun w => (kv.1, w))
          (if isDict obj then fn kv.2 params
           else .ok (loggerCatch (vectorize_param_raw fn fuel kv.2 [])))) es)
    | .vndarray s d => fn (.vndarray s d) params
    | .vframe cols => pdDataFrameOf (loggerCatch (vectorize_param_raw fn fuel (frameToDict cols) []))
    | _ => .ok .vnone

/-- The decorated `vectorize_param(fun)` closure. -/
def vectorize_param (fn : PyFunP) (limit : Nat) (obj : PyVal) (params : Params) : PyVal :=
  loggerCatch (vectorize_param_raw fn limit obj params)

/-- The undecorated body of `to_vectorize` inside `vectorize_multi(fun)`.
`name` is `fun.__name__`, used to synthesize the dict-branch output keys. -/
def vectorize_multi_raw (name : String) (fn : PyFunN) : Nat → List PyVal → Except Err PyVal
  | 0, _ => .error .recursionError
  | fuel + 1, objects =>
    if all_types_same objects isLeaf then fn objects
    else if !(argument_consistency objects containerPreds) then
      .error (.typeError TYPE_MISMATCH_MSG)
    else match objects.headD .vnone with
    | .vlist _ =>
      if !(len_consistency objects "list") then .error (.typeError ALL_ARGUMENTS)
      else okMap .vlist (mapE (fun i =>
        let el := get_section_list objects i
        if all_types_same el isLeaf then fn el
        else .ok (loggerCatch (vectorize_multi_raw name fn fuel el)))
        (List.range (pyLen (objects.headD .vnone))))
    | .vtuple _ =>
      if !(len_consistency objects "list") then .error (.typeError ALL_ARGUMENTS)
      else pyTupleOf (loggerCatch (vectorize_multi_raw name fn fuel (objects.map pyListOf)))
    | .vset _ =>
      if !(len_consistency objects "list") then .error (.typeError ALL_ARGUMENTS)
      else pySetOf (loggerCatch (vectorize_multi_raw name fn fuel (objects.map pyListOf)))
    | .vdict _ =>
      if !(objects.all (fun o =>
            (dictKeys o).length == (dictKeys (objects.headD .vnone)).length)) then
        .error (.typeError ALL_ARGUMENTS)
      else okMap .vdict (mapE (fun i =>
        let key_el := objects.map (fun o => (dictKeys o).getD i .vnone)
        let val_el := objects.map (fun o => (dictVals o).getD i .vnone)
        if val_el.all (fun element => isLeaf element) then
          okMap (fun w => (PyVal.vstr (synthKey name key_el), w)) (fn val_el)
        else .ok (.vstr (synthKey name key_el),
                  loggerCatch (vectorize_multi_raw name fn fuel val_el)))
        (List.range (dictKeys (objects.headD .vnone)).length))
    | .vndarray _ _ =>
      if !(objects.all (fun o => npShape o == npShape (objects.headD .vnone))) then
        .error (.typeError ALL_ARGUMENTS)
      else fn objects
    | .vframe _ =>
      if !(objects.all (fun o => pyShape o == pyShape (objects.headD .vnone))) then
        .error (.typeError ALL_ARGUMENTS)
      else pdDataFrameOf (loggerCatch (vectorize_multi_raw name fn fuel (objects.map frameToDictVal)))
    | .vseries _ =>
      if !(objects.all (fun o => pyShape o == pyShape (objects.headD .vnone))) then
        .error (.typeError ALL_ARGUMENTS)
      else pdSeriesOf (loggerCatch (vectorize_multi_raw name fn fuel (objects.map seriesToDictVal)))
    | _ => .ok .vnone

/-- The decorated `vectorize_multi(fun)` closure. -/
def vectorize_multi (name : String) (fn : PyFunN) (limit : Nat) (objects : List PyVal) : PyVal :=
  loggerCatch (vectorize_multi_raw name fn limit objects)

/-- The undecorated body of `to_vectorize` inside `vectorize_multi_param(fun)`.
Unlike `vectorize_param`, every recursive call here DOES forward `**params`.
Note the set branch: the source calls `len_consistency(objects, "set")`, and
`"set"` matches no branch of `len_consistency`, which returns False, so the
set branch always raises `TypeError(ALL_ARGUMENTS)`. -/
def vectorize_multi_param_raw (name : String) (fn : PyFunNP) :
    Nat → List PyVal → Params → Except Err PyVal
  | 0, _, _ => .error .recursionError
  | fuel + 1, objects, params =>
    if !(params.all (fun param => isLeaf param.2)) then .error (.typeError PARAM_TYPE_MSG)
    else if objects.all (fun o => isLeaf o) then fn objects params
    else if !(containerPreds.any (fun typ => objects.all typ)) then
      .error (.typeError TYPE_MISMATCH_MSG)
    else match objects.headD .vnone with
    | .vlist _ =>
      if !(len_consistency objects "list") then .error (.typeError ALL_ARGUMENTS)
      else okMap .vlist (mapE (fun i =>
        let el := get_section_list objects i
        if dtype_consistency_in_container el isLeaf then fn el params
        else .ok (loggerCatch (vectorize_multi_param_raw name fn fuel el params)))
        (List.range (pyLen (objects.headD .vnone))))
    | .vtuple _ =>
      if !(len_consistency objects "tuple") then .error (.typeError ALL_ARGUMENTS)
      else pyTupleOf (loggerCatch
        (vectorize_multi_param_raw name fn fuel (objects.map pyListOf) params))
    | .vset _ =>
      if !(len_consistency objects "set") then .error (.typeError ALL_ARGUMENTS)
      else pySetOf (loggerCatch
        (vectorize_multi_param_raw name fn fuel (objects.map pyListOf) params))
    | .vdict _ =>
      if !(len_consistency objects "dict") then .error (.typeError ALL_ARGUMENTS)
      else okMap .vdict (mapE (fun i =>
        let sec := get_section_dict objects i
        if dtype_consistency_in_container sec.2 isLeaf then
          okMap (fun w => (PyVal.vstr (synthKey name sec.1), w)) (fn sec.2 params)
        else .ok (.vstr (synthKey name sec.1),
                  loggerCatch (vectorize_multi_param_raw name fn fuel sec.2 params)))
        (List.range (dictKeys (objects.headD .vnone)).length))
    | .vndarray _ _ =>
      if !(len_consistency objects "np.ndarray") then .error (.typeError ALL_ARGUMENTS)
      else fn objects params
    | .vframe _ =>
      if !(len_consistency objects "pd.DataFrame") then .error (.typeError ALL_ARGUMENTS)
      else pdDataFrameOf (loggerCatch
        (vectorize_multi_param_raw name fn fuel (objects.map frameToDictVal) params))
    | .vseries _ =>
      if !(len_consistency objects "pd.Series") then .error (.typeError ALL_ARGUMENTS)
      else pdSeriesOf (loggerCatch
        (vectorize_multi_param_raw name fn fuel (objects.map seriesToDictVal) params))
    | _ => .ok .vnone

/-- The decorated `vectorize_multi_param(fun)` closure. -/
def vectorize_multi_param (name : String) (fn : PyFunNP) (limit : Nat)
    (objects : List PyVal) (params : Params) : PyVal :=
  loggerCatch (vectorize_multi_param_raw name fn limit objects params)

/-! Concrete inputs and leaf functions used by witnesses and counterexamples. -/

/-- The identity leaf function. -/
def pyIdF : PyFun := fun v => .ok v

/-- `lambda x: x + 1` on int leaves. -/
def incF : PyFun := fun v => match v with
  | .vint n => .ok (.vint (n + 1))
  | _ => .error (.userError "incF: not an int")

/-- `lambda x: 0`. -/
def czeroF : PyFun := fun _ => .ok (.vint 0)

/-- `def add(x, y): return x + y`, as an N-ary leaf function. -/
def addF : PyFunN := fun args => match args with
  | [.vint a, .vint b] => .ok (.vint (a + b))
  | _ => .error (.userError "addF expects two int leaves")

/-- `def f(x, **p): return x + p.get("scale", 0)`: a leaf function whose
result observably depends on whether the `scale` parameter was forwarded. -/
def scaleF : PyFunP := fun v ps => match v with
  | .vint n => .ok (.vint (n + (match ps.lookup "scale" with
      | some (.vint s) => s
      | _ => 0)))
  | _ => .error (.userError "scaleF: not an int")

/-- `scaleF` as a function of a single `*objects` argument, used to contrast
`vectorize_param` with `vectorize_multi_param` on the same nested input. -/
def scaleNF : PyFunNP := fun args ps => match args with
  | [v] => scaleF v ps
  | _ => .error (.userError "scaleNF expects one argument")

/-- A leaf function that always raises. -/
def boomF : PyFun := fun _ => .error (.userError "boom")

/-- A parameterized leaf function that always raises. -/
def boomPF : PyFunP := fun _ _ => .error (.userError "boom")

/-- An N-ary leaf function that always raises. -/
def boomNF : PyFunN := fun _ => .error (.userError "boom")

/-- An N-ary parameterized leaf function that always raises. -/
def boomNPF : PyFunNP := fun _ _ => .error (.userError "boom")

/-- A list nested to depth `n`: `deepList 2 = [[0]]`. -/
def deepList : Nat → PyVal
  | 0 => .vint 0
  | n + 1 => .vlist [deepList n]

/-- The value the engine actually produces on a too-deep list: nesting that
ends in `None` where the recursion limit was exhausted. -/
def cutStruct : Nat → PyVal
  | 0 => .vnone
  | n + 1 => .vlist [cutStruct n]

/-- Modelled from the spec: "Output is therefore always a flat, single-level
mapping" — the property that a value is a mapping none of whose values is
itself a mapping. -/
def isFlatMapping : PyVal → Bool
  | .vdict es => es.all (fun kv => !(isDict kv.2))
  | _ => false

/-! Helper lemmas about the effectful combinators, shared by the claim
proofs. -/

theorem okMap_eq_ok {α β : Type} (g : α → β) (r : Except Err α) (b : β)
    (h : okMap g r = .ok b) : ∃ a, r = .ok a ∧ b = g a := by
  cases r with
  | error e => simp [okMap] at h
  | ok a =>
    refine ⟨a, rfl, ?_⟩
    simpa [okMap] using h.symm

theorem mapE_ok_mem {α β : Type} (f : α → Except Err β) :
    ∀ (xs : List α) (ys : List β), mapE f xs = .ok ys → ∀ y ∈ ys, ∃ x ∈ xs, f x = .ok y := by
  intro xs
  induction xs with
  | nil =>
    intro ys h y hy
    simp [mapE] at h
    subst h
    simp at hy
  | cons x xs ih =>
    intro ys h y hy
    rw [mapE] at h
    cases hfx : f x with
    | error e => rw [hfx] at h; exact absurd h (by simp)
    | ok b =>
      rw [hfx] at h
      cases hxs : mapE f xs with
      | error e => rw [hxs] at h; exact absurd h (by simp)
      | ok bs =>
        rw [hxs] at h
        simp only [Except.ok.injEq] at h
        subst h
        rcases List.mem_cons.mp hy with h1 | h2
        · exact ⟨x, List.mem_cons_self x xs, by rw [h1]; exact hfx⟩
        · obtain ⟨x', hx', hfx'⟩ := ih bs hxs y h2
          exact ⟨x', List.mem_cons_of_mem x hx', hfx'⟩

theorem mapE_ok_map {α β γ : Type} (f : α → Except Err β) (g : β → γ) (gg : α → γ) :
    ∀ (xs : List α) (ys : List β), mapE f xs = .ok ys →
      (∀ x ∈ xs, ∀ y, f x = .ok y → g y = gg x) → ys.map g = xs.map gg := by
  intro xs
  induction xs with
  | nil =>
    intro ys h hfg
    simp [mapE] at h
    subst h
    rfl
  | cons x xs ih =>
    intro ys h hfg
    rw [mapE] at h
    cases hfx : f x with
    | error e => rw [hfx] at h; exact absurd h (by simp)
    | ok b =>
      rw [hfx] at h
      cases hxs : mapE f xs with
      | error e => rw [hxs] at h; exact absurd h (by simp)
      | ok bs =>
        rw [hxs] at h
        simp only [Except.ok.injEq] at h
        subst h
        have h1 : g b = gg x := hfg x (List.mem_cons_self x xs) b hfx
        have h2 : bs.map g = xs.map gg :=
          ih bs hxs (fun a ha y hy => hfg a (List.mem_cons_of_mem x ha) y hy)
        simp [List.map, h1, h2]

theorem getD_mem_of_lt {α : Type} :
    ∀ (l : List α) (i : Nat) (d : α), i < l.length → l.getD i d ∈ l := by
  intro l
  induction l with
  | nil => intro i d h; simp at h
  | cons x xs ih =>
    intro i d h
    cases i with
    | zero => simp [List.getD]
    | succ j =>
      have := ih j d (by simpa using h)
      simp only [List.getD] at this ⊢
      exact List.mem_cons_of_mem x this

/-- Unfolds the list branch of `vectorize_multi_raw` on two lists whose
`len_consistency` check fails. -/
theorem multi_raw_two_lists (name : String) (fn : PyFunN) (fuel : Nat) (xs ys : List PyVal)
    (hlenc : len_consistency [PyVal.vlist xs, PyVal.vlist ys] "list" = false) :
    vectorize_multi_raw name fn (fuel + 1) [.vlist xs, .vlist ys]
      = .error (.typeError ALL_ARGUMENTS) := by
  show (if !(len_consistency [PyVal.vlist xs, PyVal.vlist ys] "list")
    then Except.error (Err.typeError ALL_ARGUMENTS) else _) = _
  rw [hlenc]
  rfl

/-- Unfolds the dict branch of `vectorize_multi_raw` on two dicts whose
key-count check succeeds. -/
theorem multi_raw_two_dicts (name : String) (fn : PyFunN) (fuel : Nat)
    (es fs : List (PyVal × PyVal))
    (hguard : ([PyVal.vdict es, PyVal.vdict fs].all (fun o =>
        (dictKeys o).length
          == (dictKeys ([PyVal.vdict es, PyVal.vdict fs].headD .vnone)).length)) = true) :
    vectorize_multi_raw name fn (fuel + 1) [.vdict es, .vdict fs]
      = okMap PyVal.vdict (mapE (fun i =>
          let key_el := [PyVal.vdict es, PyVal.vdict fs].map (fun o => (dictKeys o).getD i .vnone)
          let val_el := [PyVal.vdict es, PyVal.vdict fs].map (fun o => (dictVals o).getD i .vnone)
          if val_el.all (fun element => isLeaf element) then
            okMap (fun w => (PyVal.vstr (synthKey name key_el), w)) (fn val_el)
          else .ok (.vstr (synthKey name key_el),
                    loggerCatch (vectorize_multi_raw name fn fuel val_el)))
          (List.range (dictKeys ([PyVal.vdict es, PyVal.vdict fs].headD .vnone)).length)) := by
  show (if !([PyVal.vdict es, PyVal.vdict fs].all (fun o =>
      (dictKeys o).length
        == (dictKeys ([PyVal.vdict es, PyVal.vdict fs].headD .vnone)).length))
    then Except.error (Err.typeError ALL_ARGUMENTS) else _) = _
  rw [hguard]
  rfl

/-- `addF` never returns a mapping. -/
theorem addF_not_dict : ∀ args w, addF args = .ok w → isDict w = false := by
  intro args w h
  simp only [addF] at h
  split at h
  · simp only [Except.ok.injEq] at h
    rw [← h]
    rfl
  · exact absurd h (by simp)

/-! Claim C1. -/

/-- Claim C1 counterexample: the claim says an exception raised by `fn`
"propagates to the caller unmodified: the engine neither swallows, wraps,
nor retries it".  At the concrete input `map(boom, 0)` the body does raise
the user exception, but the decorated call the caller sees returns `None`:
the `@logger.catch` wrapper swallows it. -/
theorem c1_counterexample :
    vectorize boomF 1 (.vint 0) = .vnone ∧
    vectorize_raw boomF 1 (.vint 0) = .error (.userError "boom") :=
  ⟨rfl, rfl⟩

/-- Claim C1 (corrected): an exception raised by the user-supplied leaf
function propagates unmodified (neither wrapped nor retried) through the
engine body of each of the four operations, but only up to the
`@logger.catch` boundary of the decorated call, which catches and logs it;
the decorated call the caller invoked then returns `None` instead of
raising. -/
theorem c1_amended_exception_swallowed
    (fn : PyFun) (fnp : PyFunP) (fnm : PyFunN) (fnmp : PyFunNP)
    (name : String) (v : PyVal) (e : Err) (ps : Params) (fuel : Nat)
    (hleaf : isLeaf v = true)
    (h1 : fn v = .error e) (h2 : fnp v ps = .error e)
    (h3 : fnm [v] = .error e) (h4 : fnmp [v] ps = .error e)
    (hps : ps.all (fun param => isLeaf param.2) = true) :
    (vectorize_raw fn (fuel + 1) v = .error e ∧ vectorize fn (fuel + 1) v = .vnone) ∧
    (vectorize_param_raw fnp (fuel + 1) v ps = .error e ∧
      vectorize_param fnp (fuel + 1) v ps = .vnone) ∧
    (vectorize_multi_raw name fnm (fuel + 1) [v] = .error e ∧
      vectorize_multi name fnm (fuel + 1) [v] = .vnone) ∧
    (vectorize_multi_param_raw name fnmp (fuel + 1) [v] ps = .error e ∧
      vectorize_multi_param name fnmp (fuel + 1) [v] ps = .vnone) := by
  have r1 : vectorize_raw fn (fuel + 1) v = .error e := by
    show (if isLeaf v then fn v else _) = _
    rw [if_pos hleaf, h1]
  have r2 : vectorize_param_raw fnp (fuel + 1) v ps = .error e := by
    show (if isLeaf v then fnp v ps else _) = _
    rw [if_pos hleaf, h2]
  have r3 : vectorize_multi_raw name fnm (fuel + 1) [v] = .error e := by
    have hall : all_types_same [v] isLeaf = true := by simp [all_types_same, hleaf]
    show (if all_types_same [v] isLeaf then fnm [v] else _) = _
    rw [if_pos hall, h3]
  have r4 : vectorize_multi_param_raw name fnmp (fuel + 1) [v] ps = .error e := by
    have hall : ([v].all (fun o => isLeaf o)) = true := by simp [hleaf]
    show (if !(ps.all (fun param => isLeaf param.2))
        then Except.error (Err.typeError PARAM_TYPE_MSG)
      else if [v].all (fun o => isLeaf o) then fnmp [v] ps else _) = _
    rw [hps, if_neg (by decide), if_pos hall, h4]
  refine ⟨⟨r1, ?_⟩, ⟨r2, ?_⟩, ⟨r3, ?_⟩, ⟨r4, ?_⟩⟩
  · simp [vectorize, r1, loggerCatch]
  · simp [vectorize_param, r2, loggerCatch]
  · simp [vectorize_multi, r3, loggerCatch]
  · simp [vectorize_multi_param, r4, loggerCatch]

/-- Claim C1 witness: the amended theorem applied to the always-raising leaf
functions at the leaf `0` with an empty parameter bag. -/
theorem c1_amended_exception_swallowed_witness :
    (vectorize_raw boomF 1 (.vint 0) = .error (.userError "boom") ∧
      vectorize boomF 1 (.vint 0) = .vnone) ∧
    (vectorize_param_raw boomPF 1 (.vint 0) [] = .error (.userError "boom") ∧
      vectorize_param boomPF 1 (.vint 0) [] = .vnone) ∧
    (vectorize_multi_raw "boom" boomNF 1 [.vint 0] = .error (.userError "boom") ∧
      vectorize_multi "boom" boomNF 1 [.vint 0] = .vnone) ∧
    (vectorize_multi_param_raw "boom" boomNPF 1 [.vint 0] [] = .error (.userError "boom") ∧
      vectorize_multi_param "boom" boomNPF 1 [.vint 0] [] = .vnone) :=
  c1_amended_exception_swallowed boomF boomPF boomNF boomNPF "boom"
    (.vint 0) (.userError "boom") [] 0 rfl rfl rfl rfl rfl rfl

/-! Claim C2. -/

/-- Claim C2 (code_bug): `map_with_params` is claimed to forward the same
parameter bag to every leaf invocation, including leaves inside nested
containers.  The four conjuncts, with `f(x, **p) = x + p.get("scale", 0)`:
1. the claim's own flat instance holds on the code:
   `map_with_params(f, [1,2,3], scale=2)` calls `f` with `scale=2` on every
   leaf, returning `[3, 4, 5]`;
2. on the nested input `map_with_params(f, [1, [2]], scale=10)` the source's
   recursive call (`to_vectorize(el)`, with no `**params`) drops the bag,
   so the nested leaf is computed WITHOUT the parameters and the engine
   returns `[11, [2]]`;
3. the forwarded call the claim requires on that nested leaf would give
   `f(2, scale=10) = 12`;
4. the sibling `vectorize_multi_param`, whose recursive calls DO forward
   `**params`, maps the same nested input to `[11, [12]]` — the behavior
   the docstring's uniform-parameter intent describes, which pins the
   single-input variant's omission as a slip. -/
theorem c2_params_dropped_eval :
    vectorize_param scaleF 1 (.vlist [.vint 1, .vint 2, .vint 3]) [("scale", .vint 2)]
      = .vlist [.vint 3, .vint 4, .vint 5] ∧
    vectorize_param scaleF 2 (.vlist [.vint 1, .vlist [.vint 2]]) [("scale", .vint 10)]
      = .vlist [.vint 11, .vlist [.vint 2]] ∧
    scaleF (.vint 2) [("scale", .vint 10)] = .ok (.vint 12) ∧
    vectorize_multi_param "scale" scaleNF 2 [.vlist [.vint 1, .vlist [.vint 2]]]
        [("scale", .vint 10)]
      = .vlist [.vint 11, .vlist [.vint 12]] :=
  ⟨rfl, rfl, rfl, rfl⟩

/-! Claim C3. -/

/-- Claim C3 counterexample: the claim says the zip-transform's returned
value is always a flat, single-level mapping, even for nested mapping
inputs.  On `zip(add, \x7ba: \x7bx: 1\x7d\x7d, \x7ba: \x7bx: 10\x7d\x7d)`
the dict branch stores the recursive result — itself a mapping — as the
value under the synthesized key, so the output is a two-level mapping. -/
theorem c3_counterexample :
    vectorize_multi "add" addF 2
        [.vdict [(.vstr "a", .vdict [(.vstr "x", .vint 1)])],
         .vdict [(.vstr "a", .vdict [(.vstr "x", .vint 10)])]]
      = .vdict [(.vstr (synthKey "add" [.vstr "a", .vstr "a"]),
                 .vdict [(.vstr (synthKey "add" [.vstr "x", .vstr "x"]), .vint 11)])] ∧
    isFlatMapping (vectorize_multi "add" addF 2
        [.vdict [(.vstr "a", .vdict [(.vstr "x", .vint 1)])],
         .vdict [(.vstr "a", .vdict [(.vstr "x", .vint 10)])]]) = false :=
  ⟨rfl, rfl⟩

/-- Claim C3 (corrected): for two mapping inputs the zip output is a flat,
single-level mapping when every aligned value-section consists of leaves
(and the leaf function returns non-mapping results); when a section holds
nested containers the recursive result is stored as the value under the
synthesized key, so nested mapping structure IS reproduced (see the
counterexample). -/
theorem c3_amended_flat_iff_leaf_sections (name : String) (fn : PyFunN) (fuel : Nat)
    (es fs : List (PyVal × PyVal)) (r : PyVal)
    (hlen : fs.length = es.length)
    (h1 : ∀ kv ∈ es, isLeaf kv.2 = true)
    (h2 : ∀ kv ∈ fs, isLeaf kv.2 = true)
    (hfn : ∀ args w, fn args = .ok w → isDict w = false)
    (hres : vectorize_multi_raw name fn (fuel + 1) [.vdict es, .vdict fs] = .ok r) :
    isFlatMapping r = true := by
  have hguard : ([PyVal.vdict es, PyVal.vdict fs].all (fun o =>
      (dictKeys o).length
        == (dictKeys ([PyVal.vdict es, PyVal.vdict fs].headD .vnone)).length)) = true := by
    simp [dictKeys, hlen]
  rw [multi_raw_two_dicts name fn fuel es fs hguard] at hres
  obtain ⟨ws, hmap, hr⟩ := okMap_eq_ok _ _ _ hres
  subst hr
  show ws.all (fun kv => !(isDict kv.2)) = true
  rw [List.all_eq_true]
  intro kv hkv
  obtain ⟨i, hi, hbody⟩ := mapE_ok_mem _ _ _ hmap kv hkv
  have hilt : i < es.length := by
    have := List.mem_range.mp hi
    simpa [dictKeys] using this
  have hval : (([PyVal.vdict es, PyVal.vdict fs].map
      (fun o => (dictVals o).getD i .vnone)).all (fun element => isLeaf element)) = true := by
    have ha : isLeaf ((es.map Prod.snd).getD i .vnone) = true := by
      have hmem : (es.map Prod.snd).getD i .vnone ∈ es.map Prod.snd :=
        getD_mem_of_lt _ i _ (by simpa using hilt)
      obtain ⟨kv', hkv', hval'⟩ := List.mem_map.mp hmem
      rw [← hval']
      exact h1 kv' hkv'
    have hb : isLeaf ((fs.map Prod.snd).getD i .vnone) = true := by
      have hmem : (fs.map Prod.snd).getD i .vnone ∈ fs.map Prod.snd :=
        getD_mem_of_lt _ i _ (by simpa [hlen] using hilt)
      obtain ⟨kv', hkv', hval'⟩ := List.mem_map.mp hmem
      rw [← hval']
      exact h2 kv' hkv'
    simpa [dictVals] using And.intro ha hb
  rw [if_pos hval] at hbody
  obtain ⟨a, hfa, hkva⟩ := okMap_eq_ok _ _ _ hbody
  rw [hkva]
  simp [hfn _ _ hfa]

/-- Claim C3 witness: the amended theorem applied to the all-leaf mapping
pair `zip(add, \x7ba: 1, b: 2\x7d, \x7ba: 10, b: 20\x7d)`, whose output is
flat. -/
theorem c3_amended_flat_iff_leaf_sections_witness :
    vectorize_multi_raw "add" addF 1
        [.vdict [(.vstr "a", .vint 1), (.vstr "b", .vint 2)],
         .vdict [(.vstr "a", .vint 10), (.vstr "b", .vint 20)]]
      = .ok (.vdict [(.vstr (synthKey "add" [.vstr "a", .vstr "a"]), .vint 11),
                     (.vstr (synthKey "add" [.vstr "b", .vstr "b"]), .vint 22)]) ∧
    isFlatMapping (.vdict [(.vstr (synthKey "add" [.vstr "a", .vstr "a"]), .vint 11),
                           (.vstr (synthKey "add" [.vstr "b", .vstr "b"]), .vint 22)]) = true :=
  ⟨rfl, c3_amended_flat_iff_leaf_sections "add" addF 0
    [(.vstr "a", .vint 1), (.vstr "b", .vint 2)]
    [(.vstr "a", .vint 10), (.vstr "b", .vint 20)]
    (.vdict [(.vstr (synthKey "add" [.vstr "a", .vstr "a"]), .vint 11),
             (.vstr (synthKey "add" [.vstr "b", .vstr "b"]), .vint 22)])
    rfl (by decide) (by decide) addF_not_dict rfl⟩

/-! Claim C4. -/

/-- Claim C4 (confirmed): on a mapping input the single-input map returns a
mapping with exactly the same keys, with `fn` applied directly to each
value — even to values that are themselves containers, which are passed
whole to `fn` and never recursed into (the source's
`isinstance(obj, dict)` condition inside the dict branch is tautologically
true, so the `to_vectorize(val)` alternative is dead code). -/
theorem c4_map_dict_direct (fn : PyFun) (entries : List (PyVal × PyVal)) (fuel : Nat)
    (ws : List (PyVal × PyVal))
    (h : mapE (fun kv => okMap (fun w => (kv.1, w)) (fn kv.2)) entries = .ok ws) :
    vectorize_raw fn (fuel + 1) (.vdict entries) = .ok (.vdict ws) ∧
    vectorize fn (fuel + 1) (.vdict entries) = .vdict ws ∧
    ws.map Prod.fst = entries.map Prod.fst := by
  have hraw : vectorize_raw fn (fuel + 1) (.vdict entries) = .ok (.vdict ws) := by
    show okMap PyVal.vdict (mapE (fun kv => okMap (fun w => (kv.1, w)) (fn kv.2)) entries)
      = .ok (.vdict ws)
    rw [h]
    rfl
  refine ⟨hraw, ?_, ?_⟩
  · show loggerCatch (vectorize_raw fn (fuel + 1) (.vdict entries)) = .vdict ws
    rw [hraw]
    rfl
  · refine mapE_ok_map _ Prod.fst Prod.fst entries ws h ?_
    intro kv hkv y hy
    obtain ⟨a, _, hya⟩ := okMap_eq_ok _ _ _ hy
    rw [hya]

/-- Claim C4 witness: the theorem applied to `map(inc, \x7ba: 1, b: 2\x7d)`,
giving `\x7ba: 2, b: 3\x7d` with the keys unchanged. -/
theorem c4_map_dict_direct_witness :
    vectorize_raw incF 1 (.vdict [(.vstr "a", .vint 1), (.vstr "b", .vint 2)])
      = .ok (.vdict [(.vstr "a", .vint 2), (.vstr "b", .vint 3)]) ∧
    vectorize incF 1 (.vdict [(.vstr "a", .vint 1), (.vstr "b", .vint 2)])
      = .vdict [(.vstr "a", .vint 2), (.vstr "b", .vint 3)] ∧
    ([(PyVal.vstr "a", PyVal.vint 2), (PyVal.vstr "b", PyVal.vint 3)].map Prod.fst)
      = ([(PyVal.vstr "a", PyVal.vint 1), (PyVal.vstr "b", PyVal.vint 2)].map Prod.fst) :=
  c4_map_dict_direct incF [(.vstr "a", .vint 1), (.vstr "b", .vint 2)] 0
    [(.vstr "a", .vint 2), (.vstr "b", .vint 3)] rfl

/-! Claim C5. -/

/-- Claim C5 counterexample: the claim says `zip(f, [1,2,3], [1,2])` fails
with `ShapeMismatchError` raised to the caller.  The body does raise the
TypeError that the spec calls `ShapeMismatchError`, but the decorated call
the caller invoked swallows it via `@logger.catch` and returns `None`: no
exception reaches the caller. -/
theorem c5_counterexample :
    vectorize_multi "f" addF 1
        [.vlist [.vint 1, .vint 2, .vint 3], .vlist [.vint 1, .vint 2]] = .vnone ∧
    vectorize_multi_raw "f" addF 1
        [.vlist [.vint 1, .vint 2, .vint 3], .vlist [.vint 1, .vint 2]]
      = .error ShapeMismatchError :=
  ⟨rfl, rfl⟩

/-- Claim C5 (corrected): on two list inputs of different lengths the engine
body raises `TypeError("All arguments should have the same shape.")` — the
failure the spec names `ShapeMismatchError` — but the `@logger.catch`
wrapper suppresses it, so the decorated call returns `None` to the caller
instead of raising. -/
theorem c5_amended_shape_mismatch_swallowed (name : String) (fn : PyFunN) (fuel : Nat)
    (xs ys : List PyVal) (h : xs.length ≠ ys.length) :
    vectorize_multi_raw name fn (fuel + 1) [.vlist xs, .vlist ys] = .error ShapeMismatchError ∧
    vectorize_multi name fn (fuel + 1) [.vlist xs, .vlist ys] = .vnone := by
  have hne : (ys.length == xs.length) = false := beq_eq_false_iff_ne.mpr (Ne.symm h)
  have hlenc : len_consistency [PyVal.vlist xs, PyVal.vlist ys] "list" = false := by
    show ([PyVal.vlist xs, PyVal.vlist ys].all
      (fun o => pyLen o == pyLen ([PyVal.vlist xs, PyVal.vlist ys].headD PyVal.vnone))) = false
    simp [pyLen, hne]
  have hraw := multi_raw_two_lists name fn fuel xs ys hlenc
  exact ⟨hraw, by simp [vectorize_multi, hraw, loggerCatch]⟩

/-- Claim C5 witness: the amended theorem applied to `[1,2,3]` and `[1,2]`. -/
theorem c5_amended_shape_mismatch_swallowed_witness :
    vectorize_multi_raw "f" addF 1
        [.vlist [.vint 1, .vint 2, .vint 3], .vlist [.vint 1, .vint 2]]
      = .error ShapeMismatchError ∧
    vectorize_multi "f" addF 1
        [.vlist [.vint 1, .vint 2, .vint 3], .vlist [.vint 1, .vint 2]] = .vnone :=
  c5_amended_shape_mismatch_swallowed "f" addF 0
    [.vint 1, .vint 2, .vint 3] [.vint 1, .vint 2] (by decide)

/-! Claim C6. -/

/-- Claim C6 counterexample: the claim says a structure nested deeper than a
configurable maximum recursion depth fails with `DepthExceededError`.  With
recursion limit 2 and the depth-4 input `[[[[0]]]]`, the engine does not
fail at all: the interior `RecursionError` is swallowed by `@logger.catch`
and the call yields `[[None]]`; no `DepthExceededError` is ever produced. -/
theorem c6_counterexample :
    vectorize_raw pyIdF 2 (deepList 4) = .ok (.vlist [.vlist [.vnone]]) ∧
    ¬ (vectorize_raw pyIdF 2 (deepList 4) = .error .depthExceededError) :=
  ⟨rfl, fun h => nomatch h⟩

/-- Claim C6 (corrected): the engine has no configurable depth guard and
never raises a `DepthExceededError`.  Recursion is bounded only by the
interpreter's recursion limit (the fuel): a list nested deeper than the
limit raises the interpreter's `RecursionError` at the frame that exhausts
it, `@logger.catch` suppresses it there, and the caller receives a value
with `None` substituted at the too-deep position — no stack fault, but no
`DepthExceededError` either. -/
theorem c6_amended_no_depth_guard (fn : PyFun) : ∀ f : Nat,
    vectorize fn f (deepList (f + 2)) = cutStruct f ∧
    vectorize_raw fn 0 (deepList (f + 2)) = .error .recursionError := by
  intro f
  refine ⟨?_, rfl⟩
  induction f with
  | zero => rfl
  | succ f ih =>
    show vectorize fn (f + 1) (deepList (f + 3)) = cutStruct (f + 1)
    have h1 : vectorize_raw fn (f + 1) (deepList (f + 3))
        = .ok (.vlist [vectorize fn f (deepList (f + 2))]) := rfl
    show loggerCatch (vectorize_raw fn (f + 1) (deepList (f + 3))) = cutStruct (f + 1)
    rw [h1, ih]
    rfl

/-! Claim C7. -/

/-- Claim C7 counterexample: the claim says the keys of
`zip(add, \x7ba: 1, b: 2\x7d, \x7ba: 10, b: 20\x7d)` are `add['a']` and
`add['b']`.  The list of keys at position i holds the i-th key FROM EACH of
the N inputs, so with two inputs the synthesized keys are `add['a', 'a']`
and `add['b', 'b']` (the values 11 and 22 are as claimed). -/
theorem c7_counterexample :
    vectorize_multi "add" addF 1
        [.vdict [(.vstr "a", .vint 1), (.vstr "b", .vint 2)],
         .vdict [(.vstr "a", .vint 10), (.vstr "b", .vint 20)]]
      = .vdict [(.vstr "add['a', 'a']", .vint 11), (.vstr "add['b', 'b']", .vint 22)] ∧
    synthKey "add" [.vstr "a", .vstr "a"] = "add['a', 'a']" ∧
    ("add['a', 'a']" : String) ≠ "add['a']" :=
  ⟨rfl, rfl, by decide⟩

/-- Claim C7 (corrected): each output key of the zip mapping branch is
synthesized as the function's name concatenated with the str of the list
collecting the i-th key from each of the N inputs; with the two inputs of
the claim's example the entries are `add['a', 'a'] : 11` and
`add['b', 'b'] : 22`. -/
theorem c7_amended_synthesized_keys (name : String) (fn : PyFunN) (fuel : Nat)
    (es fs : List (PyVal × PyVal)) (ws : List (PyVal × PyVal))
    (hlen : fs.length = es.length)
    (h : vectorize_multi_raw name fn (fuel + 1) [.vdict es, .vdict fs] = .ok (.vdict ws)) :
    ws.map Prod.fst = (List.range es.length).map (fun i =>
      PyVal.vstr (synthKey name
        [(es.map Prod.fst).getD i .vnone, (fs.map Prod.fst).getD i .vnone])) := by
  have hguard : ([PyVal.vdict es, PyVal.vdict fs].all (fun o =>
      (dictKeys o).length
        == (dictKeys ([PyVal.vdict es, PyVal.vdict fs].headD .vnone)).length)) = true := by
    simp [dictKeys, hlen]
  rw [multi_raw_two_dicts name fn fuel es fs hguard] at h
  obtain ⟨ws', hmap, hdict⟩ := okMap_eq_ok _ _ _ h
  have hws : ws = ws' := by
    simpa [PyVal.vdict.injEq] using hdict
  subst hws
  have hkeys := mapE_ok_map _ Prod.fst (fun i =>
      PyVal.vstr (synthKey name
        [(es.map Prod.fst).getD i .vnone, (fs.map Prod.fst).getD i .vnone]))
      _ _ hmap ?_
  · rw [hkeys]
    simp [dictKeys]
  · intro i _ y hy
    by_cases hleafs : ([PyVal.vdict es, PyVal.vdict fs].map
        (fun o => (dictVals o).getD i .vnone)).all (fun element => isLeaf element)
    · rw [if_pos hleafs] at hy
      obtain ⟨a, _, hya⟩ := okMap_eq_ok _ _ _ hy
      rw [hya]
      simp [dictKeys]
    · rw [if_neg hleafs] at hy
      simp only [Except.ok.injEq] at hy
      rw [← hy]
      simp [dictKeys]

/-- Claim C7 witness: the amended theorem applied to the claim's example. -/
theorem c7_amended_synthesized_keys_witness :
    ([(PyVal.vstr "add['a', 'a']", PyVal.vint 11),
      (PyVal.vstr "add['b', 'b']", PyVal.vint 22)].map Prod.fst)
      = (List.range 2).map (fun i =>
          PyVal.vstr (synthKey "add"
            [([PyVal.vstr "a", PyVal.vstr "b"]).getD i PyVal.vnone,
             ([PyVal.vstr "a", PyVal.vstr "b"]).getD i PyVal.vnone])) :=
  c7_amended_synthesized_keys "add" addF 0
    [(.vstr "a", .vint 1), (.vstr "b", .vint 2)]
    [(.vstr "a", .vint 10), (.vstr "b", .vint 20)]
    [(.vstr "add['a', 'a']", .vint 11), (.vstr "add['b', 'b']", .vint 22)]
    rfl rfl

/-! Claim C8. -/

/-- Claim C8 (confirmed): on a set input the map rebuilds the result as a
set: the element list is mapped (via the list branch of the decorated
recursive call) and the `set(...)` conversion collapses duplicates by value
equality. -/
theorem c8_set_dedup (fn : PyFun) (fuel : Nat) (xs ys : List PyVal)
    (h : vectorize_raw fn fuel (.vlist xs) = .ok (.vlist ys)) :
    vectorize_raw fn (fuel + 1) (.vset xs) = .ok (.vset (pyDedup ys)) ∧
    vectorize fn (fuel + 1) (.vset xs) = .vset (pyDedup ys) := by
  have hraw : vectorize_raw fn (fuel + 1) (.vset xs) = .ok (.vset (pyDedup ys)) := by
    show pySetOf (loggerCatch (vectorize_raw fn fuel (.vlist xs))) = _
    rw [h]
    rfl
  refine ⟨hraw, ?_⟩
  show loggerCatch (vectorize_raw fn (fuel + 1) (.vset xs)) = _
  rw [hraw]
  rfl

/-- Claim C8 witness: the theorem applied to `map(lambda x: 0, \x7b1, 2,
3\x7d)`, which yields a set of size 1. -/
theorem c8_set_dedup_witness :
    vectorize_raw czeroF 2 (.vset [.vint 1, .vint 2, .vint 3]) = .ok (.vset [.vint 0]) ∧
    vectorize czeroF 2 (.vset [.vint 1, .vint 2, .vint 3]) = .vset [.vint 0] ∧
    ([PyVal.vint 0] : List PyVal).length = 1 :=
  ⟨(c8_set_dedup czeroF 1 [.vint 1, .vint 2, .vint 3]
      [.vint 0, .vint 0, .vint 0] rfl).1,
   (c8_set_dedup czeroF 1 [.vint 1, .vint 2, .vint 3]
      [.vint 0, .vint 0, .vint 0] rfl).2, rfl⟩

/-! Claim C9. -/

/-- Claim C9 (confirmed): a `pd.Series` input passes the container check of
the single-input map (`pd.Series` is in `CONTAINER_TYPES`, so the
not-a-data-container TypeError is not raised), yet it matches none of the
traversal branches, so the body falls off the `if`/`elif` chain and the
call returns `None` instead of a transformed structure or an error. -/
theorem c9_series_returns_none (fn : PyFun) (fuel : Nat)
    (entries : List (PyVal × PyVal)) :
    isLeaf (.vseries entries) = false ∧
    isContainer (.vseries entries) = true ∧
    vectorize_raw fn (fuel + 1) (.vseries entries) = .ok .vnone ∧
    vectorize fn (fuel + 1) (.vseries entries) = .vnone :=
  ⟨rfl, rfl, rfl, rfl⟩

/-! Claim C10. -/

/-- Claim C10 (confirmed): strings, bytes, bytearray and memoryview values
are classified as leaves (they are in `BASE_TYPES`, hence in `TYPES`), so
the single-input map applies `fn` exactly once to the whole value — the
result equals `fn` applied to the entire string for EVERY `fn`, so the
engine never iterates over the characters. -/
theorem c10_strings_are_leaves (fn : PyFun) (fuel : Nat) (s : String)
    (bs cs ds : List Nat) :
    isLeaf (.vstr s) = true ∧ isLeaf (.vbytes bs) = true ∧
    isLeaf (.vbytearray cs) = true ∧ isLeaf (.vmemoryview ds) = true ∧
    vectorize_raw fn (fuel + 1) (.vstr s) = fn (.vstr s) ∧
    vectorize_raw fn (fuel + 1) (.vbytes bs) = fn (.vbytes bs) ∧
    vectorize_raw fn (fuel + 1) (.vbytearray cs) = fn (.vbytearray cs) ∧
    vectorize_raw fn (fuel + 1) (.vmemoryview ds) = fn (.vmemoryview ds) :=
  ⟨rfl, rfl, rfl, rfl, rfl, rfl, rfl, rfl⟩
